import Mathlib

/-!
Verification development for the crop-recommendation engine of the
CropRecommendation repository.

The definitions below are a shallow embedding of
`apps/recommendations/business_logic.py` and `apps/recommendations/services.py`.
Python floats are modelled as exact rationals (ℚ), Python ints as ℤ/ℕ,
`None`-able arguments as `Option`, and dictionaries as association lists or
total functions with the `.get` default baked into the final `else` branch.
`round(x, n)` is modelled by exact round-half-to-even at `n` decimal digits.
The ambient clock (`timezone.now()`) is passed in explicitly: the current
month for season inference and the current year for rotation lookback.
Numeric values interpolated into human-readable strings are rendered with
Lean's `toString`, which stands in for Python's string formatting.
-/

namespace CropRec

/-- Round-half-to-even of a rational to an integer, the rounding mode of
Python's built-in `round`. -/
def rhe (x : ℚ) : ℤ :=
  let n := ⌊x⌋
  let f := x - n
  if f < 1/2 then n
  else if 1/2 < f then n + 1
  else if n % 2 = 0 then n else n + 1

/-- Python `round(x, 2)`. -/
def round2 (x : ℚ) : ℚ := (rhe (x * 100) : ℚ) / 100

/-- Python `round(x, 1)`. -/
def round1 (x : ℚ) : ℚ := (rhe (x * 10) : ℚ) / 10

/-! ### business_logic.py — CropRotationAnalyzer -/

/-- A `{crop_name, year, season}` crop-history dict; any key may be absent. -/
structure HistoryEntry where
  crop_name : Option String
  year : Option ℤ
  season : Option String
deriving DecidableEq

namespace CropRotationAnalyzer

/-- Python `CROP_FAMILIES` dict (crop → family). -/
def CROP_FAMILIES (c : String) : Option String :=
  if c = "Rice" then some "cereal"
  else if c = "Wheat" then some "cereal"
  else if c = "Maize" then some "cereal"
  else if c = "Soybean" then some "legume"
  else if c = "Groundnut" then some "legume"
  else if c = "Pigeon Pea" then some "legume"
  else if c = "Cotton" then some "fiber"
  else if c = "Sugarcane" then some "cash"
  else if c = "Potato" then some "root"
  else if c = "Tomato" then some "solanaceae"
  else if c = "Onion" then some "allium"
  else if c = "Chilli" then some "solanaceae"
  else none

/-- Python `COMPATIBLE_ROTATIONS.get(c, [])`. -/
def COMPATIBLE_ROTATIONS (c : String) : List String :=
  if c = "Rice" then ["Wheat", "Potato", "Groundnut", "Soybean"]
  else if c = "Wheat" then ["Rice", "Soybean", "Groundnut", "Potato"]
  else if c = "Maize" then ["Soybean", "Groundnut", "Wheat"]
  else if c = "Soybean" then ["Wheat", "Rice", "Maize", "Cotton"]
  else if c = "Groundnut" then ["Wheat", "Rice", "Maize"]
  else if c = "Cotton" then ["Wheat", "Soybean", "Groundnut"]
  else if c = "Potato" then ["Wheat", "Rice", "Soybean"]
  else if c = "Tomato" then ["Wheat", "Onion", "Groundnut"]
  else if c = "Onion" then ["Wheat", "Tomato", "Potato"]
  else if c = "Chilli" then ["Wheat", "Onion", "Groundnut"]
  else if c = "Pigeon Pea" then ["Wheat", "Rice", "Cotton"]
  else if c = "Sugarcane" then ["Wheat", "Potato", "Groundnut"]
  else []

/-- Python `INCOMPATIBLE_CROPS.get(c, [])`. -/
def INCOMPATIBLE_CROPS (c : String) : List String :=
  if c = "Rice" then ["Rice"]
  else if c = "Wheat" then ["Wheat"]
  else if c = "Maize" then ["Maize", "Rice", "Wheat"]
  else if c = "Tomato" then ["Tomato", "Chilli", "Potato"]
  else if c = "Chilli" then ["Chilli", "Tomato", "Potato"]
  else if c = "Potato" then ["Potato", "Tomato", "Chilli"]
  else []

/-- Python `CROP_FAMILIES.get(h.get('crop_name'), '')`: family of a history entry's
crop, the empty string when the crop name is absent or unknown. -/
def histFamily (o : Option String) : String :=
  match o with
  | some c => (CROP_FAMILIES c).getD ""
  | none => ""

/-- Python `[h for h in field_history if h.get('year', 0) >= current_year - years_to_check]`. -/
def recentHistory (currentYear yearsToCheck : ℤ) (hist : List HistoryEntry) :
    List HistoryEntry :=
  hist.filter (fun h => decide (currentYear - yearsToCheck ≤ h.year.getD 0))

/-- Python `sum(1 for h in recent_history if h.get('crop_name') == crop_name)`. -/
def sameCropCount (crop : String) (recent : List HistoryEntry) : ℕ :=
  (recent.filter (fun h => decide (h.crop_name = some crop))).length

/-- Python `min(same_crop_count * 25, 50)`, the same-crop rotation penalty. -/
def sameCropPenalty (n : ℕ) : ℤ := min ((n : ℤ) * 25) 50

/-- The recent-history entries whose crop is in `INCOMPATIBLE_CROPS[crop]`. -/
def incompatOccurrences (crop : String) (recent : List HistoryEntry) :
    List HistoryEntry :=
  recent.filter (fun h =>
    match h.crop_name with
    | some c => decide (c ∈ INCOMPATIBLE_CROPS crop)
    | none => false)

/-- The recent-history entries whose crop is in `COMPATIBLE_ROTATIONS[crop]`. -/
def compatOccurrences (crop : String) (recent : List HistoryEntry) :
    List HistoryEntry :=
  recent.filter (fun h =>
    match h.crop_name with
    | some c => decide (c ∈ COMPATIBLE_ROTATIONS crop)
    | none => false)

/-- The nitrogen-fixation bonus condition: the candidate's family is `legume`
and some recent entry is a non-legume. -/
def legumeBonusApplies (crop : String) (recent : List HistoryEntry) : Bool :=
  decide ((CROP_FAMILIES crop).getD "unknown" = "legume") &&
    recent.any (fun h => decide (histFamily h.crop_name ≠ "legume"))

/-- The rotation score before the final clamp: start at 100, subtract the
same-crop penalty, subtract 15 per incompatible occurrence, add 10 per
compatible occurrence, add 5 for the legume bonus. -/
def rawRotationScore (crop : String) (recent : List HistoryEntry) : ℤ :=
  100 - (if 0 < sameCropCount crop recent
           then sameCropPenalty (sameCropCount crop recent) else 0)
      - 15 * (incompatOccurrences crop recent).length
      + 10 * (compatOccurrences crop recent).length
      + (if legumeBonusApplies crop recent then 5 else 0)

/-- Python `max(0, min(100, score))`. -/
def clampedRotationScore (crop : String) (recent : List HistoryEntry) : ℤ :=
  max 0 (min 100 (rawRotationScore crop recent))

/-- Result dict of `CropRotationAnalyzer.get_rotation_score`. -/
structure RotationResult where
  rotation_score : ℚ
  reasons : List String
  rotation_benefits : List String
  rotation_penalties : List String
deriving DecidableEq

/-- Python renders a missing (`None`) crop name as the string "None" when
interpolating it into a message. -/
def prevCropName (h : HistoryEntry) : String := h.crop_name.getD "None"

def incompatPenaltyMsg (h : HistoryEntry) : String :=
  let prev := prevCropName h
  s!"Incompatible crop {prev} grown recently"

def incompatReasonMsg (crop : String) (h : HistoryEntry) : String :=
  let prev := prevCropName h
  s!"Crop rotation: {prev} is incompatible with {crop}"

def compatBenefitMsg (crop : String) (h : HistoryEntry) : String :=
  let prev := prevCropName h
  s!"Good rotation: {prev} → {crop}"

def compatReasonMsg (crop : String) (h : HistoryEntry) : String :=
  let prev := prevCropName h
  s!"Crop rotation: Good rotation from {prev}"

/-- Headline reason inserted at position 0, banded on the clamped score. -/
def rotationHeadline (score : ℤ) : String :=
  if 90 ≤ score then "Excellent crop rotation pattern"
  else if 70 ≤ score then "Good crop rotation pattern"
  else if 50 ≤ score then "Moderate crop rotation - some improvements recommended"
  else "Poor crop rotation - significant improvements needed"

/-- Python `CropRotationAnalyzer.get_rotation_score(crop_name, field_history,
years_to_check)`; `currentYear` models `timezone.now().year`. -/
def get_rotation_score (crop : String) (field_history : List HistoryEntry)
    (currentYear : ℤ) (years_to_check : ℤ) : RotationResult :=
  if field_history = [] then
    { rotation_score := 100
      reasons := ["No crop history - rotation score neutral"]
      rotation_benefits := []
      rotation_penalties := [] }
  else
    let recent := recentHistory currentYear years_to_check field_history
    if recent = [] then
      { rotation_score := 100
        reasons := ["No recent crop history - rotation score neutral"]
        rotation_benefits := []
        rotation_penalties := [] }
    else
      let sc := sameCropCount crop recent
      let samePenaltyList :=
        if 0 < sc then
          [s!"Crop {crop} was grown {sc} time(s) in last {years_to_check} years"]
        else []
      let sameReasonList :=
        if 0 < sc then
          [s!"Crop rotation: {crop} grown recently - {sameCropPenalty sc}% penalty"]
        else []
      let incompat := incompatOccurrences crop recent
      let incompatPenalties := incompat.map incompatPenaltyMsg
      let incompatReasons := incompat.map (incompatReasonMsg crop)
      let compat := compatOccurrences crop recent
      let compatBenefits := compat.map (compatBenefitMsg crop)
      let compatReasons := compat.map (compatReasonMsg crop)
      let legumeBenefits :=
        if legumeBonusApplies crop recent then
          ["Legume crop after non-legume improves soil nitrogen"] else []
      let legumeReasons :=
        if legumeBonusApplies crop recent then
          ["Crop rotation: Legume crop benefits soil health"] else []
      let score := clampedRotationScore crop recent
      { rotation_score := (score : ℚ)
        reasons := rotationHeadline score ::
          (sameReasonList ++ incompatReasons ++ compatReasons ++ legumeReasons)
        rotation_benefits := compatBenefits ++ legumeBenefits
        rotation_penalties := samePenaltyList ++ incompatPenalties }

end CropRotationAnalyzer

/-! ### business_logic.py — ProfitCalculator -/

namespace ProfitCalculator

/-- Python `MARKET_PRICES.get(c, 20)`. -/
def MARKET_PRICES (c : String) : ℚ :=
  if c = "Rice" then 25
  else if c = "Wheat" then 22
  else if c = "Maize" then 18
  else if c = "Cotton" then 120
  else if c = "Sugarcane" then 3
  else if c = "Potato" then 15
  else if c = "Tomato" then 30
  else if c = "Onion" then 20
  else if c = "Chilli" then 80
  else if c = "Groundnut" then 60
  else if c = "Soybean" then 45
  else if c = "Pigeon Pea" then 50
  else 20

/-- Python `INPUT_COSTS.get(c, 40000)`. -/
def INPUT_COSTS (c : String) : ℚ :=
  if c = "Rice" then 40000
  else if c = "Wheat" then 35000
  else if c = "Maize" then 38000
  else if c = "Cotton" then 50000
  else if c = "Sugarcane" then 60000
  else if c = "Potato" then 80000
  else if c = "Tomato" then 100000
  else if c = "Onion" then 70000
  else if c = "Chilli" then 90000
  else if c = "Groundnut" then 45000
  else if c = "Soybean" then 40000
  else if c = "Pigeon Pea" then 35000
  else 40000

/-- Python `LABOR_COSTS.get(c, 20000)`. -/
def LABOR_COSTS (c : String) : ℚ :=
  if c = "Rice" then 20000
  else if c = "Wheat" then 15000
  else if c = "Maize" then 18000
  else if c = "Cotton" then 25000
  else if c = "Sugarcane" then 30000
  else if c = "Potato" then 25000
  else if c = "Tomato" then 30000
  else if c = "Onion" then 20000
  else if c = "Chilli" then 25000
  else if c = "Groundnut" then 20000
  else if c = "Soybean" then 18000
  else if c = "Pigeon Pea" then 15000
  else 20000

/-- Python `RISK_FACTORS.get(c, 0.3)`. -/
def RISK_FACTORS (c : String) : ℚ :=
  if c = "Rice" then 0.3
  else if c = "Wheat" then 0.2
  else if c = "Maize" then 0.25
  else if c = "Cotton" then 0.4
  else if c = "Sugarcane" then 0.2
  else if c = "Potato" then 0.35
  else if c = "Tomato" then 0.4
  else if c = "Onion" then 0.3
  else if c = "Chilli" then 0.35
  else if c = "Groundnut" then 0.25
  else if c = "Soybean" then 0.2
  else if c = "Pigeon Pea" then 0.2
  else 0.3

/-- Result dict of `ProfitCalculator.calculate_profit` (the nested `breakdown`
repeats the fields already present and is elided). -/
structure ProfitResult where
  crop_name : String
  expected_yield : ℚ
  market_price_per_kg : ℚ
  revenue : ℚ
  input_costs : ℚ
  labor_costs : ℚ
  total_costs : ℚ
  gross_profit : ℚ
  risk_factor : ℚ
  risk_factor_percentage : ℚ
  risk_adjusted_profit : ℚ
  profit_margin : ℚ
  profit_margin_percentage : ℚ
  roi : ℚ
deriving DecidableEq

/-- Python `ProfitCalculator.calculate_profit(crop_name, expected_yield,
yield_multiplier, risk_adjustment)`. -/
def calculate_profit (crop_name : String) (expected_yield yield_multiplier
    risk_adjustment : ℚ) : ProfitResult :=
  let market_price := MARKET_PRICES crop_name
  let input_cost := INPUT_COSTS crop_name
  let labor_cost := LABOR_COSTS crop_name
  let risk_factor := RISK_FACTORS crop_name
  let adjusted_yield := expected_yield * yield_multiplier
  let revenue := adjusted_yield * market_price
  let total_costs := input_cost + labor_cost
  let gross_profit := revenue - total_costs
  let risk_adjusted_profit := gross_profit * (1 - risk_factor * risk_adjustment)
  let profit_margin_pct :=
    if 0 < revenue then risk_adjusted_profit / revenue * 100 else 0
  let roi := if 0 < total_costs then risk_adjusted_profit / total_costs * 100 else 0
  { crop_name := crop_name
    expected_yield := round2 adjusted_yield
    market_price_per_kg := market_price
    revenue := round2 revenue
    input_costs := input_cost
    labor_costs := labor_cost
    total_costs := total_costs
    gross_profit := round2 gross_profit
    risk_factor := risk_factor
    risk_factor_percentage := round1 (risk_factor * 100)
    risk_adjusted_profit := round2 risk_adjusted_profit
    profit_margin := round2 risk_adjusted_profit
    profit_margin_percentage := round2 profit_margin_pct
    roi := round2 roi }

end ProfitCalculator

/-! ### business_logic.py — SustainabilityScorer -/

namespace SustainabilityScorer

/-- Python `WATER_USAGE.get(c, 1000000)`. -/
def WATER_USAGE (c : String) : ℚ :=
  if c = "Rice" then 2500000
  else if c = "Wheat" then 800000
  else if c = "Maize" then 600000
  else if c = "Cotton" then 1000000
  else if c = "Sugarcane" then 2000000
  else if c = "Potato" then 500000
  else if c = "Tomato" then 600000
  else if c = "Onion" then 400000
  else if c = "Chilli" then 500000
  else if c = "Groundnut" then 500000
  else if c = "Soybean" then 600000
  else if c = "Pigeon Pea" then 400000
  else 1000000

/-- Python `SOIL_HEALTH_IMPACT.get(c, 0)`. -/
def SOIL_HEALTH_IMPACT (c : String) : ℚ :=
  if c = "Rice" then -10
  else if c = "Wheat" then 0
  else if c = "Maize" then -5
  else if c = "Cotton" then -20
  else if c = "Sugarcane" then -15
  else if c = "Potato" then -10
  else if c = "Tomato" then -5
  else if c = "Onion" then 0
  else if c = "Chilli" then -5
  else if c = "Groundnut" then 20
  else if c = "Soybean" then 25
  else if c = "Pigeon Pea" then 30
  else 0

/-- Python `CARBON_FOOTPRINT.get(c, 3000)`. -/
def CARBON_FOOTPRINT (c : String) : ℚ :=
  if c = "Rice" then 5000
  else if c = "Wheat" then 2000
  else if c = "Maize" then 2500
  else if c = "Cotton" then 4000
  else if c = "Sugarcane" then 3000
  else if c = "Potato" then 2500
  else if c = "Tomato" then 3000
  else if c = "Onion" then 2000
  else if c = "Chilli" then 2500
  else if c = "Groundnut" then 1500
  else if c = "Soybean" then 1500
  else if c = "Pigeon Pea" then 1000
  else 3000

/-- Python `BIODIVERSITY_IMPACT.get(c, 0)`. -/
def BIODIVERSITY_IMPACT (c : String) : ℚ :=
  if c = "Rice" then 10
  else if c = "Wheat" then 0
  else if c = "Maize" then -10
  else if c = "Cotton" then -30
  else if c = "Sugarcane" then -20
  else if c = "Potato" then -5
  else if c = "Tomato" then 0
  else if c = "Onion" then 0
  else if c = "Chilli" then 0
  else if c = "Groundnut" then 10
  else if c = "Soybean" then 15
  else if c = "Pigeon Pea" then 20
  else 0

/-- The water sub-score (0-25). -/
def waterScore (crop_name : String) (water_availability : Option ℚ) : ℚ :=
  let water_usage := WATER_USAGE crop_name
  match water_availability with
  | some w =>
    if water_usage * 1.2 ≤ w then 25
    else if water_usage ≤ w then 20
    else if water_usage * 0.8 ≤ w then 15
    else 5
  | none =>
    if water_usage < 500000 then 20
    else if water_usage < 1000000 then 15
    else 10

/-- The soil sub-score: base clamped to [0,25], then the bonus is added. -/
def soilScore (crop_name : String) (soil_health_bonus : ℚ) : ℚ :=
  max 0 (min 25 (12.5 + SOIL_HEALTH_IMPACT crop_name / 2)) + soil_health_bonus

/-- The carbon sub-score, tiered on the crop's carbon footprint. -/
def carbonScore (crop_name : String) : ℚ :=
  let carbon_footprint := CARBON_FOOTPRINT crop_name
  if carbon_footprint < 1500 then 25
  else if carbon_footprint < 2500 then 20
  else if carbon_footprint < 3500 then 15
  else 10

/-- The biodiversity sub-score: base clamped to [0,25], then the bonus. -/
def biodiversityScore (crop_name : String) (rotation_bonus : ℚ) : ℚ :=
  max 0 (min 25 (12.5 + BIODIVERSITY_IMPACT crop_name / 2)) + rotation_bonus

/-- Result dict of `SustainabilityScorer.calculate_sustainability_score`. -/
structure SustainabilityResult where
  sustainability_score : ℚ
  water_score : ℚ
  water_score_percentage : ℚ
  soil_score : ℚ
  soil_score_percentage : ℚ
  carbon_score : ℚ
  carbon_score_percentage : ℚ
  biodiversity_score : ℚ
  biodiversity_score_percentage : ℚ
  water_usage : ℚ
  soil_health_impact : ℚ
  carbon_footprint : ℚ
  biodiversity_impact : ℚ
deriving DecidableEq

/-- Python `SustainabilityScorer.calculate_sustainability_score(crop_name,
water_availability, soil_health_bonus, rotation_bonus)`. -/
def calculate_sustainability_score (crop_name : String)
    (water_availability : Option ℚ) (soil_health_bonus rotation_bonus : ℚ) :
    SustainabilityResult :=
  let water_score := waterScore crop_name water_availability
  let soil_score := soilScore crop_name soil_health_bonus
  let carbon_score := carbonScore crop_name
  let biodiversity_score := biodiversityScore crop_name rotation_bonus
  let total_score :=
    max 0 (min 100 (water_score + soil_score + carbon_score + biodiversity_score))
  { sustainability_score := round2 total_score
    water_score := round2 water_score
    water_score_percentage := round1 (water_score / 25 * 100)
    soil_score := round2 soil_score
    soil_score_percentage := round1 (soil_score / 25 * 100)
    carbon_score := round2 carbon_score
    carbon_score_percentage := round1 (carbon_score / 25 * 100)
    biodiversity_score := round2 biodiversity_score
    biodiversity_score_percentage := round1 (biodiversity_score / 25 * 100)
    water_usage := WATER_USAGE crop_name
    soil_health_impact := SOIL_HEALTH_IMPACT crop_name
    carbon_footprint := CARBON_FOOTPRINT crop_name
    biodiversity_impact := BIODIVERSITY_IMPACT crop_name }

end SustainabilityScorer

/-! ### business_logic.py — RecommendationRanker -/

namespace RecommendationRanker

/-- The `WEIGHTS` dict: fixed named weight constants. -/
def WEIGHT_compatibility : ℚ := 0.35

def WEIGHT_profit : ℚ := 0.25

def WEIGHT_sustainability : ℚ := 0.20

def WEIGHT_rotation : ℚ := 0.15

def WEIGHT_risk : ℚ := 0.05

/-- Result dict of `RecommendationRanker.calculate_composite_score`
(the echoed `weights` entry is the constant `WEIGHTS` dict and is elided). -/
structure CompositeResult where
  composite_score : ℚ
  compatibility_part : ℚ
  profit_part : ℚ
  sustainability_part : ℚ
  rotation_part : ℚ
  risk_part : ℚ
deriving DecidableEq

/-- Python `RecommendationRanker.calculate_composite_score(compatibility_score,
profit_score, sustainability_score, rotation_score, risk_factor)`. -/
def calculate_composite_score (compatibility_score profit_score
    sustainability_score rotation_score risk_factor : ℚ) : CompositeResult :=
  let profit_normalized := min 100 (max 0 profit_score)
  let risk_score := (1 - risk_factor) * 100
  let composite :=
    compatibility_score * WEIGHT_compatibility +
    profit_normalized * WEIGHT_profit +
    sustainability_score * WEIGHT_sustainability +
    rotation_score * WEIGHT_rotation +
    risk_score * WEIGHT_risk
  { composite_score := round2 composite
    compatibility_part := round2 (compatibility_score * WEIGHT_compatibility)
    profit_part := round2 (profit_normalized * WEIGHT_profit)
    sustainability_part := round2 (sustainability_score * WEIGHT_sustainability)
    rotation_part := round2 (rotation_score * WEIGHT_rotation)
    risk_part := round2 (risk_score * WEIGHT_risk) }

end RecommendationRanker

/-! ### services.py — CropRecommendationService -/

namespace CropRecommendationService

/-- One entry of the `CROP_REQUIREMENTS` dict. -/
structure CropReq where
  ph_min : ℚ
  ph_max : ℚ
  n_min : ℚ
  p_min : ℚ
  k_min : ℚ
  moisture_min : ℚ
  temperature_min : ℚ
  temperature_max : ℚ
  rainfall_min : ℚ
  season : List String
  sustainability_score : ℚ
deriving DecidableEq

/-- The `CROP_REQUIREMENTS` dict, in insertion order. -/
def CROP_REQUIREMENTS : List (String × CropReq) :=
  [("Rice", ⟨5.0, 7.5, 100, 20, 40, 60, 20, 35, 1000, ["kharif"], 75⟩),
   ("Wheat", ⟨6.0, 7.5, 120, 30, 50, 40, 15, 25, 500, ["rabi"], 80⟩),
   ("Maize", ⟨5.5, 7.0, 150, 25, 60, 50, 18, 30, 600, ["kharif", "zaid"], 70⟩),
   ("Cotton", ⟨5.5, 8.0, 80, 20, 50, 50, 21, 35, 500, ["kharif"], 65⟩),
   ("Sugarcane", ⟨6.0, 7.5, 200, 40, 100, 70, 20, 35, 1200, ["year_round"], 60⟩),
   ("Potato", ⟨4.8, 5.5, 100, 50, 150, 60, 15, 25, 500, ["rabi", "zaid"], 75⟩),
   ("Tomato", ⟨6.0, 7.0, 120, 40, 120, 60, 18, 28, 400, ["year_round"], 70⟩),
   ("Onion", ⟨6.0, 7.0, 100, 30, 80, 50, 13, 25, 400, ["rabi", "kharif"], 75⟩),
   ("Chilli", ⟨6.0, 7.0, 100, 30, 100, 50, 20, 30, 400, ["kharif", "rabi"], 70⟩),
   ("Groundnut", ⟨6.0, 7.5, 20, 20, 40, 40, 20, 35, 500, ["kharif", "rabi"], 80⟩),
   ("Soybean", ⟨6.0, 7.0, 20, 30, 50, 50, 20, 30, 600, ["kharif"], 85⟩),
   ("Pigeon Pea", ⟨6.0, 7.5, 20, 20, 30, 40, 20, 35, 600, ["kharif"], 90⟩)]

/-- Dict lookup `CROP_REQUIREMENTS[crop]` / the `crop in CROP_REQUIREMENTS` test. -/
def lookupReq (crop : String) : Option CropReq :=
  (CROP_REQUIREMENTS.find? (fun p => p.1 == crop)).map (fun p => p.2)

/-- Python `AVERAGE_YIELDS.get(c, d)` for the supplied default `d`. -/
def AVERAGE_YIELDS (c : String) (d : ℚ) : ℚ :=
  if c = "Rice" then 3000
  else if c = "Wheat" then 3500
  else if c = "Maize" then 4000
  else if c = "Cotton" then 500
  else if c = "Sugarcane" then 70000
  else if c = "Potato" then 25000
  else if c = "Tomato" then 30000
  else if c = "Onion" then 20000
  else if c = "Chilli" then 15000
  else if c = "Groundnut" then 2000
  else if c = "Soybean" then 2500
  else if c = "Pigeon Pea" then 1200
  else d

/-- Python `AVERAGE_PROFITS.get(c, 0)`. -/
def AVERAGE_PROFITS (c : String) : ℚ :=
  if c = "Rice" then 50000
  else if c = "Wheat" then 60000
  else if c = "Maize" then 55000
  else if c = "Cotton" then 80000
  else if c = "Sugarcane" then 150000
  else if c = "Potato" then 200000
  else if c = "Tomato" then 250000
  else if c = "Onion" then 180000
  else if c = "Chilli" then 200000
  else if c = "Groundnut" then 70000
  else if c = "Soybean" then 60000
  else if c = "Pigeon Pea" then 50000
  else 0

/-- Python `get_current_season()`; `month` models `timezone.now().month`. -/
def get_current_season (month : ℕ) : String :=
  if month ∈ [6, 7, 8, 9, 10] then "kharif"
  else if month ∈ [11, 12, 1, 2, 3] then "rabi"
  else "zaid"

/-- Result dict of `calculate_compatibility_score`; `match_details` is the
factor → qualitative-label mapping in insertion order. -/
structure CompatResult where
  score : ℚ
  reasons : List String
  match_details : List (String × String)
deriving DecidableEq

/-- Per-factor outcome: penalty to subtract, reasons to append, label. -/
def phCheck (req : CropReq) (soil_ph : Option ℚ) : ℤ × List String × String :=
  match soil_ph with
  | some ph =>
    if req.ph_min ≤ ph ∧ ph ≤ req.ph_max then (0, [], "optimal")
    else if |ph - req.ph_min| < 0.5 ∨ |ph - req.ph_max| < 0.5 then
      (10, [s!"pH ({ph}) slightly outside optimal range"], "acceptable")
    else (30, [s!"pH ({ph}) outside optimal range"], "poor")
  | none => (5, [], "unknown")

/-- Shared nutrient check for N, P and K (`label` names the nutrient). -/
def nutrientCheck (nmin : ℚ) (v : Option ℚ) (label : String) :
    ℤ × List String × String :=
  match v with
  | some x =>
    if nmin ≤ x then (0, [], "sufficient")
    else if nmin * 0.7 ≤ x then (5, [s!"{label} ({x} kg/ha) below optimal"], "low")
    else (15, [s!"{label} ({x} kg/ha) significantly below optimal"], "deficient")
  | none => (3, [], "unknown")

def moistureCheck (req : CropReq) (soil_moisture : Option ℚ) :
    ℤ × List String × String :=
  match soil_moisture with
  | some m =>
    if req.moisture_min ≤ m then (0, [], "sufficient")
    else if req.moisture_min * 0.8 ≤ m then
      (5, [s!"Moisture ({m}%) below optimal"], "low")
    else (10, [s!"Moisture ({m}%) significantly below optimal"], "deficient")
  | none => (3, [], "unknown")

def temperatureCheck (req : CropReq) (temperature : Option ℚ) :
    ℤ × List String × String :=
  match temperature with
  | some t =>
    if req.temperature_min ≤ t ∧ t ≤ req.temperature_max then (0, [], "optimal")
    else if |t - req.temperature_min| < 3 ∨ |t - req.temperature_max| < 3 then
      (5, [s!"Temperature ({t}°C) slightly outside optimal range"], "acceptable")
    else (15, [s!"Temperature ({t}°C) outside optimal range"], "poor")
  | none => (3, [], "unknown")

/-- Season check: penalty and label, using the given-or-inferred season. -/
def seasonCheck (req : CropReq) (crop : String) (effSeason : String) :
    ℤ × List String × String :=
  if effSeason ∈ req.season ∨ "year_round" ∈ req.season then (0, [], "suitable")
  else (20, [s!"Current season ({effSeason}) not ideal for {crop}"], "unsuitable")

/-- Headline reason inserted at position 0, banded on the final score. -/
def compatHeadline (score : ℤ) : String :=
  if 80 ≤ score then "Excellent match for current conditions"
  else if 60 ≤ score then "Good match for current conditions"
  else if 40 ≤ score then "Moderate match - some conditions need improvement"
  else "Poor match - significant improvements needed"

/-- Python `CropRecommendationService.calculate_compatibility_score(crop, soil_ph,
soil_n, soil_p, soil_k, soil_moisture, temperature, rainfall, season)`;
`month` models `timezone.now().month` used by season inference.  The
`rainfall` argument is accepted but, as in the source, never read. -/
def calculate_compatibility_score (crop : String)
    (soil_ph soil_n soil_p soil_k soil_moisture temperature rainfall : Option ℚ)
    (season : Option String) (month : ℕ) : CompatResult :=
  match lookupReq crop with
  | none =>
    { score := 0, reasons := ["Crop not in database"], match_details := [] }
  | some req =>
    let ph := phCheck req soil_ph
    let n := nutrientCheck req.n_min soil_n "Nitrogen"
    let p := nutrientCheck req.p_min soil_p "Phosphorus"
    let k := nutrientCheck req.k_min soil_k "Potassium"
    let mo := moistureCheck req soil_moisture
    let t := temperatureCheck req temperature
    let effSeason := season.getD (get_current_season month)
    let se := seasonCheck req crop effSeason
    let score : ℤ :=
      max 0 (100 - ph.1 - n.1 - p.1 - k.1 - mo.1 - t.1 - se.1)
    { score := (score : ℚ)
      reasons := compatHeadline score ::
        (ph.2.1 ++ n.2.1 ++ p.2.1 ++ k.2.1 ++ mo.2.1 ++ t.2.1 ++ se.2.1)
      match_details :=
        [("ph", ph.2.2), ("n", n.2.2), ("p", p.2.2), ("k", k.2.2),
         ("moisture", mo.2.2), ("temperature", t.2.2), ("season", se.2.2)] }

/-- One recommendation record returned by `get_recommendations`. -/
structure Recommendation where
  crop_name : String
  confidence_score : ℚ
  expected_yield : ℚ
  profit_margin : ℚ
  sustainability_score : ℚ
  reasons : List String
  match_details : List (String × String)
  ml_prediction : Bool
deriving DecidableEq

/-- One per-crop prediction returned by the external ML predictor. -/
structure MLPred where
  crop_name : String
  confidence_score : ℚ
deriving DecidableEq

/-- Enhancement of one ML prediction (body of the ML-path loop);
`ml_yield` models `ml_service.predict_yield` for the call's conditions. -/
def enhanceMLRec (ml_yield : String → Option ℚ) (rec : MLPred) : Recommendation :=
  let expected_yield :=
    match ml_yield rec.crop_name with
    | some y => y
    | none => AVERAGE_YIELDS rec.crop_name 0 * (rec.confidence_score / 100)
  let profit_per_kg :=
    AVERAGE_PROFITS rec.crop_name / max (AVERAGE_YIELDS rec.crop_name 1) 1
  let profit_margin := expected_yield * profit_per_kg
  let sustainability_score :=
    ((lookupReq rec.crop_name).map (fun r => r.sustainability_score)).getD 70
  { crop_name := rec.crop_name
    confidence_score := rec.confidence_score
    expected_yield := round2 expected_yield
    profit_margin := round2 profit_margin
    sustainability_score := sustainability_score
    reasons :=
      let conf := rec.confidence_score
      [s!"ML model prediction with {conf}% confidence"]
    match_details := [("ml_prediction", "True")]
    ml_prediction := true }

/-- The rule-based per-crop records, in crop-table insertion order. -/
def ruleBasedRecords
    (soil_ph soil_n soil_p soil_k soil_moisture temperature rainfall : Option ℚ)
    (season : Option String) (month : ℕ) : List Recommendation :=
  CROP_REQUIREMENTS.map (fun cr =>
    let crop := cr.1
    let compatibility := calculate_compatibility_score crop soil_ph soil_n
      soil_p soil_k soil_moisture temperature rainfall season month
    let yield_multiplier := compatibility.score / 100
    let expected_yield := AVERAGE_YIELDS crop 0 * yield_multiplier
    let profit_margin := AVERAGE_PROFITS crop * yield_multiplier
    { crop_name := crop
      confidence_score := compatibility.score
      expected_yield := round2 expected_yield
      profit_margin := round2 profit_margin
      sustainability_score := cr.2.sustainability_score
      reasons := compatibility.reasons
      match_details := compatibility.match_details
      ml_prediction := false })

/-- Descending order on confidence score, the key of
`recommendations.sort(key=..., reverse=True)`. -/
def byConfidenceDesc (a b : Recommendation) : Prop :=
  b.confidence_score ≤ a.confidence_score

instance : DecidableRel byConfidenceDesc := fun a b =>
  inferInstanceAs (Decidable (_ ≤ _))

instance : IsTotal Recommendation byConfidenceDesc :=
  ⟨fun a b => le_total b.confidence_score a.confidence_score⟩

instance : IsTrans Recommendation byConfidenceDesc :=
  ⟨fun _ _ _ hab hbc => le_trans hbc hab⟩

/-- The rule-based fallback path of `get_recommendations`: score every crop,
sort descending by confidence (stably, as Python's `sort`), truncate. -/
def ruleBasedPath
    (soil_ph soil_n soil_p soil_k soil_moisture temperature rainfall : Option ℚ)
    (season : Option String) (month : ℕ) (limit : ℕ) : List Recommendation :=
  (List.insertionSort byConfidenceDesc
    (ruleBasedRecords soil_ph soil_n soil_p soil_k soil_moisture temperature
      rainfall season month)).take limit

/-- Python `CropRecommendationService.get_recommendations(...)`.

The external ML predictor is an opaque collaborator; its outcome for this
call is passed in: `mlOutcome` is `.error ()` when
`predict_crop_recommendations` raises, otherwise `.ok` with the returned
list, and `ml_yield` models `predict_yield`.  `ml_available` models the
import-time `ML_AVAILABLE` flag.  An exception outcome is caught (the code's
`try/except`) and, like an empty prediction list, falls through to the
rule-based path. -/
def get_recommendations
    (soil_ph soil_n soil_p soil_k soil_moisture temperature rainfall
      humidity latitude longitude : Option ℚ)
    (season : Option String) (limit : ℕ) (use_ml : Bool) (ml_available : Bool)
    (mlOutcome : Except Unit (List MLPred)) (ml_yield : String → Option ℚ)
    (month : ℕ) : List Recommendation :=
  if use_ml && ml_available then
    match mlOutcome with
    | .ok ml_recommendations =>
      if ml_recommendations = [] then
        ruleBasedPath soil_ph soil_n soil_p soil_k soil_moisture temperature
          rainfall season month limit
      else
        ml_recommendations.map (enhanceMLRec ml_yield)
    | .error _ =>
      ruleBasedPath soil_ph soil_n soil_p soil_k soil_moisture temperature
        rainfall season month limit
  else
    ruleBasedPath soil_ph soil_n soil_p soil_k soil_moisture temperature
      rainfall season month limit

end CropRecommendationService

/-! ### Auxiliary lemmas -/

theorem rhe_intCast (n : ℤ) : rhe (n : ℚ) = n := by
  unfold rhe
  rw [Int.floor_intCast]
  norm_num

/-- Python rounding at two decimals is the identity on values that are integer
multiples of 1/100. -/
theorem round2_eq_self {x : ℚ} {n : ℤ} (h : x * 100 = (n : ℚ)) : round2 x = x := by
  unfold round2
  rw [h, rhe_intCast, ← h]
  field_simp

theorem rhe_nonneg {x : ℚ} (h : 0 ≤ x) : 0 ≤ rhe x := by
  unfold rhe
  have h0 : (0 : ℤ) ≤ ⌊x⌋ := Int.floor_nonneg.mpr h
  dsimp only
  split_ifs <;> omega

theorem rhe_le {x : ℚ} {m : ℤ} (h : x ≤ (m : ℚ)) : rhe x ≤ m := by
  unfold rhe
  have hfl : ⌊x⌋ ≤ m := Int.floor_le_floor h |>.trans_eq (Int.floor_intCast m)
  dsimp only
  split_ifs with h1 h2 h3
  · exact hfl
  · -- fractional part exceeds 1/2, so x is not an integer and ⌊x⌋ < m
    have hx : (⌊x⌋ : ℚ) < x := by
      have : (0 : ℚ) < x - ⌊x⌋ := lt_trans (by norm_num) h2
      linarith
    have : ⌊x⌋ < m := by
      by_contra hc
      push_neg at hc
      have : (m : ℚ) ≤ (⌊x⌋ : ℚ) := by exact_mod_cast hc
      linarith
    omega
  · exact hfl
  · -- fractional part is exactly 1/2, again x is not an integer
    have h2' : (1/2 : ℚ) ≤ x - ⌊x⌋ := le_of_not_lt h1
    have hx : (⌊x⌋ : ℚ) < x := by linarith
    have : ⌊x⌋ < m := by
      by_contra hc
      push_neg at hc
      have : (m : ℚ) ≤ (⌊x⌋ : ℚ) := by exact_mod_cast hc
      linarith
    omega

theorem round2_zero : round2 0 = 0 := by
  unfold round2
  rw [show ((0 : ℚ) * 100) = ((0 : ℤ) : ℚ) by norm_num, rhe_intCast]
  norm_num

theorem round2_bounds {x : ℚ} (h0 : 0 ≤ x) (h1 : x ≤ 100) :
    0 ≤ round2 x ∧ round2 x ≤ 100 := by
  unfold round2
  constructor
  · have : (0 : ℤ) ≤ rhe (x * 100) := rhe_nonneg (by positivity)
    have : (0 : ℚ) ≤ (rhe (x * 100) : ℚ) := by exact_mod_cast this
    linarith
  · have : rhe (x * 100) ≤ (10000 : ℤ) := by
      refine rhe_le ?_
      push_cast
      linarith
    have : ((rhe (x * 100) : ℚ)) ≤ 10000 := by exact_mod_cast this
    linarith

/-! ### Claim theorems -/

open RecommendationRanker in
/-- C1: `RecommendationRanker.calculate_composite_score` returns (up to the
final 2-decimal rounding) the weighted sum
`compatibility*0.35 + clamped-profit*0.25 + sustainability*0.20 +
rotation*0.15 + (1-risk_factor)*100*0.05`; the weights are fixed named
constants summing to 1.0, and for compatibility=80, profit=60,
sustainability=70, rotation=90, risk_factor=0.2 the composite score is 74.5. -/
theorem composite_score_weighted_sum :
    (∀ c p s r k : ℚ,
      (calculate_composite_score c p s r k).composite_score =
        round2 (c * WEIGHT_compatibility + min 100 (max 0 p) * WEIGHT_profit +
          s * WEIGHT_sustainability + r * WEIGHT_rotation +
          (1 - k) * 100 * WEIGHT_risk)) ∧
    WEIGHT_compatibility = 0.35 ∧ WEIGHT_profit = 0.25 ∧
    WEIGHT_sustainability = 0.20 ∧ WEIGHT_rotation = 0.15 ∧
    WEIGHT_risk = 0.05 ∧
    WEIGHT_compatibility + WEIGHT_profit + WEIGHT_sustainability +
      WEIGHT_rotation + WEIGHT_risk = 1 ∧
    (calculate_composite_score 80 60 70 90 0.2).composite_score = 74.5 := by
  refine ⟨fun c p s r k => rfl, rfl, rfl, rfl, rfl, rfl, ?_, ?_⟩
  · norm_num [WEIGHT_compatibility, WEIGHT_profit, WEIGHT_sustainability,
      WEIGHT_rotation, WEIGHT_risk]
  · show round2 _ = _
    rw [show ((80 : ℚ) * WEIGHT_compatibility + min 100 (max 0 60) * WEIGHT_profit +
        70 * WEIGHT_sustainability + 90 * WEIGHT_rotation +
        (1 - 0.2) * 100 * WEIGHT_risk) = 74.5 by
      norm_num [WEIGHT_compatibility, WEIGHT_profit, WEIGHT_sustainability,
        WEIGHT_rotation, WEIGHT_risk]]
    rw [round2_eq_self (n := 7450) (by norm_num)]

open ProfitCalculator in
/-- C3: `ProfitCalculator.calculate_profit` computes
`adjusted_yield = expected_yield * yield_multiplier`,
`revenue = adjusted_yield * market_price`,
`total_costs = input_cost + labor_cost`,
`gross_profit = revenue - total_costs`,
`risk_adjusted_profit = gross_profit * (1 - risk_factor * risk_adjustment)`,
guards both ratios (`profit_margin_percentage = 0` when `revenue ≤ 0`, `roi = 0`
when `total_costs ≤ 0`), and for `yield_multiplier = 0` yields `revenue = 0`
and `profit_margin_percentage = 0` with no division by zero. -/
theorem calculate_profit_formulas (crop : String) (ey ym ra : ℚ) :
    (calculate_profit crop ey ym ra).expected_yield = round2 (ey * ym) ∧
    (calculate_profit crop ey ym ra).revenue =
      round2 (ey * ym * MARKET_PRICES crop) ∧
    (calculate_profit crop ey ym ra).total_costs =
      INPUT_COSTS crop + LABOR_COSTS crop ∧
    (calculate_profit crop ey ym ra).gross_profit =
      round2 (ey * ym * MARKET_PRICES crop -
        (INPUT_COSTS crop + LABOR_COSTS crop)) ∧
    (calculate_profit crop ey ym ra).risk_adjusted_profit =
      round2 ((ey * ym * MARKET_PRICES crop -
        (INPUT_COSTS crop + LABOR_COSTS crop)) *
        (1 - RISK_FACTORS crop * ra)) ∧
    (calculate_profit crop ey ym ra).profit_margin_percentage =
      (if 0 < ey * ym * MARKET_PRICES crop then
        round2 ((ey * ym * MARKET_PRICES crop -
          (INPUT_COSTS crop + LABOR_COSTS crop)) *
          (1 - RISK_FACTORS crop * ra) / (ey * ym * MARKET_PRICES crop) * 100)
       else 0) ∧
    (calculate_profit crop ey ym ra).roi =
      (if 0 < INPUT_COSTS crop + LABOR_COSTS crop then
        round2 ((ey * ym * MARKET_PRICES crop -
          (INPUT_COSTS crop + LABOR_COSTS crop)) *
          (1 - RISK_FACTORS crop * ra) /
          (INPUT_COSTS crop + LABOR_COSTS crop) * 100)
       else 0) ∧
    (calculate_profit crop ey 0 ra).revenue = 0 ∧
    (calculate_profit crop ey 0 ra).profit_margin_percentage = 0 := by
  have hpm : (calculate_profit crop ey ym ra).profit_margin_percentage =
      round2 (if 0 < ey * ym * MARKET_PRICES crop then
        (ey * ym * MARKET_PRICES crop - (INPUT_COSTS crop + LABOR_COSTS crop)) *
          (1 - RISK_FACTORS crop * ra) / (ey * ym * MARKET_PRICES crop) * 100
      else 0) := rfl
  have hroi : (calculate_profit crop ey ym ra).roi =
      round2 (if 0 < INPUT_COSTS crop + LABOR_COSTS crop then
        (ey * ym * MARKET_PRICES crop - (INPUT_COSTS crop + LABOR_COSTS crop)) *
          (1 - RISK_FACTORS crop * ra) / (INPUT_COSTS crop + LABOR_COSTS crop) * 100
      else 0) := rfl
  have hrev0 : (calculate_profit crop ey 0 ra).revenue =
      round2 (ey * 0 * MARKET_PRICES crop) := rfl
  have hpm0 : (calculate_profit crop ey 0 ra).profit_margin_percentage =
      round2 (if 0 < ey * 0 * MARKET_PRICES crop then
        (ey * 0 * MARKET_PRICES crop - (INPUT_COSTS crop + LABOR_COSTS crop)) *
          (1 - RISK_FACTORS crop * ra) / (ey * 0 * MARKET_PRICES crop) * 100
      else 0) := rfl
  have hz : ey * 0 * MARKET_PRICES crop = 0 := by ring
  refine ⟨rfl, rfl, rfl, rfl, rfl, ?_, ?_, ?_, ?_⟩
  · rw [hpm]
    split_ifs with h
    · rfl
    · exact round2_zero
  · rw [hroi]
    split_ifs with h
    · rfl
    · exact round2_zero
  · rw [hrev0, hz, round2_zero]
  · rw [hpm0, if_neg (by rw [hz]; exact lt_irrefl 0), round2_zero]

open SustainabilityScorer in
/-- C8: For every crop name, water availability and (possibly extreme)
bonuses, `SustainabilityScorer.calculate_sustainability_score` returns the sum
of the four sub-scores clamped to [0,100] (then rounded), hence always a value
within [0,100]. -/
theorem sustainability_score_clamped_bounds (crop : String)
    (wa : Option ℚ) (shb rb : ℚ) :
    (calculate_sustainability_score crop wa shb rb).sustainability_score =
      round2 (max 0 (min 100 (waterScore crop wa + soilScore crop shb +
        carbonScore crop + biodiversityScore crop rb))) ∧
    0 ≤ (calculate_sustainability_score crop wa shb rb).sustainability_score ∧
    (calculate_sustainability_score crop wa shb rb).sustainability_score ≤ 100 := by
  have hb := round2_bounds
    (x := max 0 (min 100 (waterScore crop wa + soilScore crop shb +
      carbonScore crop + biodiversityScore crop rb)))
    (le_max_left _ _) (max_le (by norm_num) (min_le_left _ _))
  exact ⟨rfl, hb.1, hb.2⟩

open CropRotationAnalyzer in
/-- C9: For every crop name, `CropRotationAnalyzer.get_rotation_score` on an
empty history, or a history with no entries inside the lookback window, returns
exactly rotation score 100, a single neutral reason, and empty benefit and
penalty lists. -/
theorem empty_history_neutral (crop : String) (hist : List HistoryEntry)
    (cy ytc : ℤ) (h : recentHistory cy ytc hist = []) :
    (get_rotation_score crop hist cy ytc).rotation_score = 100 ∧
    (get_rotation_score crop hist cy ytc).reasons.length = 1 ∧
    (get_rotation_score crop hist cy ytc).rotation_benefits = [] ∧
    (get_rotation_score crop hist cy ytc).rotation_penalties = [] := by
  unfold get_rotation_score
  by_cases he : hist = []
  · simp [he]
  · simp [he, h]

/-- Witness for `empty_history_neutral` at the empty history. -/
theorem empty_history_neutral_witness :
    (CropRotationAnalyzer.get_rotation_score "Rice" [] 2025 3).rotation_score = 100 ∧
    (CropRotationAnalyzer.get_rotation_score "Rice" [] 2025 3).reasons.length = 1 ∧
    (CropRotationAnalyzer.get_rotation_score "Rice" [] 2025 3).rotation_benefits = [] ∧
    (CropRotationAnalyzer.get_rotation_score "Rice" [] 2025 3).rotation_penalties = [] :=
  empty_history_neutral "Rice" [] 2025 3 rfl

open CropRotationAnalyzer in
/-- C5 counterexample: The rotation headline does not follow the
CompatibilityScorer banding (≥80 excellent / ≥60 good / ≥40 moderate): growing
Maize after Rice scores 85, which the claim would band "excellent", yet the
headline is the "good" one. -/
theorem rotation_headline_not_compat_banding :
    (get_rotation_score "Maize" [⟨some "Rice", some 2025, none⟩] 2025 3).rotation_score
      = 85 ∧
    (get_rotation_score "Maize" [⟨some "Rice", some 2025, none⟩] 2025 3).reasons.head?
      = some "Good crop rotation pattern" ∧
    "Good crop rotation pattern" ≠ "Excellent crop rotation pattern" := by
  decide

open CropRotationAnalyzer in
/-- C5 amended: For every crop and history with entries in the lookback
window, the headline reason prepended by
`CropRotationAnalyzer.get_rotation_score` is banded on the clamped score with
thresholds shifted 10 above the CompatibilityScorer's: ≥90 excellent,
≥70 good, ≥50 moderate, else poor. -/
theorem rotation_headline_banding (crop : String) (hist : List HistoryEntry)
    (cy ytc : ℤ) (h1 : hist ≠ []) (h2 : recentHistory cy ytc hist ≠ []) :
    (get_rotation_score crop hist cy ytc).rotation_score =
      ((clampedRotationScore crop (recentHistory cy ytc hist) : ℤ) : ℚ) ∧
    (get_rotation_score crop hist cy ytc).reasons.head? = some
      (if 90 ≤ clampedRotationScore crop (recentHistory cy ytc hist) then
        "Excellent crop rotation pattern"
      else if 70 ≤ clampedRotationScore crop (recentHistory cy ytc hist) then
        "Good crop rotation pattern"
      else if 50 ≤ clampedRotationScore crop (recentHistory cy ytc hist) then
        "Moderate crop rotation - some improvements recommended"
      else "Poor crop rotation - significant improvements needed") := by
  constructor <;> simp [get_rotation_score, rotationHeadline, h1, h2]

open CropRotationAnalyzer in
/-- Witness for `rotation_headline_banding` at Maize after Rice (score 85). -/
theorem rotation_headline_banding_witness :
    (get_rotation_score "Maize" [⟨some "Rice", some 2025, none⟩] 2025 3).rotation_score =
      ((clampedRotationScore "Maize"
        (recentHistory 2025 3 [⟨some "Rice", some 2025, none⟩]) : ℤ) : ℚ) ∧
    (get_rotation_score "Maize" [⟨some "Rice", some 2025, none⟩] 2025 3).reasons.head? = some
      (if 90 ≤ clampedRotationScore "Maize"
          (recentHistory 2025 3 [⟨some "Rice", some 2025, none⟩]) then
        "Excellent crop rotation pattern"
      else if 70 ≤ clampedRotationScore "Maize"
          (recentHistory 2025 3 [⟨some "Rice", some 2025, none⟩]) then
        "Good crop rotation pattern"
      else if 50 ≤ clampedRotationScore "Maize"
          (recentHistory 2025 3 [⟨some "Rice", some 2025, none⟩]) then
        "Moderate crop rotation - some improvements recommended"
      else "Poor crop rotation - significant improvements needed") :=
  rotation_headline_banding "Maize" [⟨some "Rice", some 2025, none⟩] 2025 3
    (by decide) (by decide)

open CropRecommendationService in
/-- C6 counterexample: With every condition argument missing, the season
factor is not labeled "unknown": the current season is inferred from the date
(month 7 → kharif) and Rice's season entry is labeled "suitable". -/
theorem all_missing_season_not_unknown :
    (calculate_compatibility_score "Rice" none none none none none none none
      none 7).match_details =
      [("ph", "unknown"), ("n", "unknown"), ("p", "unknown"), ("k", "unknown"),
       ("moisture", "unknown"), ("temperature", "unknown"),
       ("season", "suitable")] ∧
    (calculate_compatibility_score "Rice" none none none none none none none
      none 7).score = 80 := by
  decide

open CropRecommendationService in
/-- C6 amended: For every crop in the reference table and all condition
arguments missing, `calculate_compatibility_score` returns (without raising) a
score in [0,100] — 80 when the inferred current season suits the crop, else
60 — and labels every factor "unknown" except the season, which is labeled
"suitable" or "unsuitable" against the inferred current season. -/
theorem compatibility_all_missing (crop : String) (req : CropReq)
    (h : lookupReq crop = some req) (month : ℕ) :
    (calculate_compatibility_score crop none none none none none none none
      none month).score =
      (if get_current_season month ∈ req.season ∨ "year_round" ∈ req.season
        then 80 else 60) ∧
    (calculate_compatibility_score crop none none none none none none none
      none month).match_details =
      [("ph", "unknown"), ("n", "unknown"), ("p", "unknown"), ("k", "unknown"),
       ("moisture", "unknown"), ("temperature", "unknown"),
       ("season", if get_current_season month ∈ req.season ∨
          "year_round" ∈ req.season then "suitable" else "unsuitable")] ∧
    0 ≤ (calculate_compatibility_score crop none none none none none none none
      none month).score ∧
    (calculate_compatibility_score crop none none none none none none none
      none month).score ≤ 100 := by
  simp only [calculate_compatibility_score, h, phCheck, nutrientCheck,
    moistureCheck, temperatureCheck, seasonCheck, Option.getD]
  split_ifs with hs <;> norm_num

/-- Witness for `compatibility_all_missing` at Rice in month 7. -/
theorem compatibility_all_missing_witness :
    (CropRecommendationService.calculate_compatibility_score "Rice" none none
      none none none none none none 7).score =
      (if CropRecommendationService.get_current_season 7 ∈ ["kharif"] ∨
        "year_round" ∈ ["kharif"] then 80 else 60) ∧
    (CropRecommendationService.calculate_compatibility_score "Rice" none none
      none none none none none none 7).match_details =
      [("ph", "unknown"), ("n", "unknown"), ("p", "unknown"), ("k", "unknown"),
       ("moisture", "unknown"), ("temperature", "unknown"),
       ("season", if CropRecommendationService.get_current_season 7 ∈ ["kharif"] ∨
          "year_round" ∈ ["kharif"] then "suitable" else "unsuitable")] ∧
    0 ≤ (CropRecommendationService.calculate_compatibility_score "Rice" none
      none none none none none none none 7).score ∧
    (CropRecommendationService.calculate_compatibility_score "Rice" none none
      none none none none none none 7).score ≤ 100 :=
  compatibility_all_missing "Rice"
    ⟨5.0, 7.5, 100, 20, 40, 60, 20, 35, 1000, ["kharif"], 75⟩ rfl 7

section RotationMonotonicity

open CropRotationAnalyzer

/-- No crop lists itself among its own compatible rotation successors. -/
theorem self_not_in_compatible (s : String) : s ∉ COMPATIBLE_ROTATIONS s := by
  by_cases h1 : s = "Rice"
  · subst h1; decide
  by_cases h2 : s = "Wheat"
  · subst h2; decide
  by_cases h3 : s = "Maize"
  · subst h3; decide
  by_cases h4 : s = "Soybean"
  · subst h4; decide
  by_cases h5 : s = "Groundnut"
  · subst h5; decide
  by_cases h6 : s = "Cotton"
  · subst h6; decide
  by_cases h7 : s = "Potato"
  · subst h7; decide
  by_cases h8 : s = "Tomato"
  · subst h8; decide
  by_cases h9 : s = "Onion"
  · subst h9; decide
  by_cases h10 : s = "Chilli"
  · subst h10; decide
  by_cases h11 : s = "Pigeon Pea"
  · subst h11; decide
  by_cases h12 : s = "Sugarcane"
  · subst h12; decide
  unfold COMPATIBLE_ROTATIONS
  rw [if_neg h1, if_neg h2, if_neg h3, if_neg h4, if_neg h5, if_neg h6,
    if_neg h7, if_neg h8, if_neg h9, if_neg h10, if_neg h11, if_neg h12]
  simp

theorem recentHistory_append (cy ytc : ℤ) (h1 h2 : List HistoryEntry) :
    recentHistory cy ytc (h1 ++ h2) =
      recentHistory cy ytc h1 ++ recentHistory cy ytc h2 := by
  simp [recentHistory, List.filter_append]

theorem sameCropCount_append_same (crop : String) (r : List HistoryEntry)
    (e : HistoryEntry) (he : e.crop_name = some crop) :
    sameCropCount crop (r ++ [e]) = sameCropCount crop r + 1 := by
  simp [sameCropCount, List.filter_append, he]

theorem incompat_append_same (crop : String) (r : List HistoryEntry)
    (e : HistoryEntry) (he : e.crop_name = some crop) :
    (incompatOccurrences crop (r ++ [e])).length =
      (incompatOccurrences crop r).length +
        (if crop ∈ INCOMPATIBLE_CROPS crop then 1 else 0) := by
  unfold incompatOccurrences
  rw [List.filter_append, List.length_append]
  by_cases hmem : crop ∈ INCOMPATIBLE_CROPS crop
  · simp [List.filter_cons, he, hmem]
  · simp [List.filter_cons, he, hmem]

theorem compat_append_same (crop : String) (r : List HistoryEntry)
    (e : HistoryEntry) (he : e.crop_name = some crop) :
    compatOccurrences crop (r ++ [e]) = compatOccurrences crop r := by
  unfold compatOccurrences
  rw [List.filter_append]
  simp [List.filter_cons, he, self_not_in_compatible crop]

theorem legume_append_same (crop : String) (r : List HistoryEntry)
    (e : HistoryEntry) (he : e.crop_name = some crop) :
    legumeBonusApplies crop (r ++ [e]) = legumeBonusApplies crop r := by
  unfold legumeBonusApplies
  by_cases hf : (CROP_FAMILIES crop).getD "unknown" = "legume"
  · have hsome : CROP_FAMILIES crop = some "legume" := by
      cases hc : CROP_FAMILIES crop with
      | none => rw [hc] at hf; simp at hf
      | some v => rw [hc] at hf; simp at hf; rw [hf]
    have hfam : histFamily e.crop_name = "legume" := by
      rw [he]; simp [histFamily, hsome]
    simp [List.any_append, hfam]
  · simp [hf]

theorem penaltyTerm_mono (m n : ℕ) (h : m ≤ n) :
    (if 0 < m then sameCropPenalty m else 0) ≤
      (if 0 < n then sameCropPenalty n else 0) := by
  unfold sameCropPenalty
  split_ifs <;> omega

theorem rawRotationScore_append_same (crop : String) (r : List HistoryEntry)
    (e : HistoryEntry) (he : e.crop_name = some crop) :
    rawRotationScore crop (r ++ [e]) ≤ rawRotationScore crop r := by
  unfold rawRotationScore
  rw [sameCropCount_append_same crop r e he, incompat_append_same crop r e he,
    compat_append_same crop r e he, legume_append_same crop r e he]
  have hp := penaltyTerm_mono (sameCropCount crop r) (sameCropCount crop r + 1)
    (by omega)
  split_ifs at hp ⊢ <;> unfold sameCropPenalty at * <;> omega

theorem clamped_append_same (crop : String) (r : List HistoryEntry)
    (e : HistoryEntry) (he : e.crop_name = some crop) :
    clampedRotationScore crop (r ++ [e]) ≤ clampedRotationScore crop r := by
  unfold clampedRotationScore
  have := rawRotationScore_append_same crop r e he
  omega

theorem rotation_score_eq (crop : String) (hist : List HistoryEntry)
    (cy ytc : ℤ) (h1 : hist ≠ []) (h2 : recentHistory cy ytc hist ≠ []) :
    (get_rotation_score crop hist cy ytc).rotation_score =
      ((clampedRotationScore crop (recentHistory cy ytc hist) : ℤ) : ℚ) := by
  simp [get_rotation_score, h1, h2]

theorem rotation_score_le_100 (crop : String) (hist : List HistoryEntry)
    (cy ytc : ℤ) : (get_rotation_score crop hist cy ytc).rotation_score ≤ 100 := by
  by_cases h1 : hist = []
  · simp [get_rotation_score, h1]
  · by_cases h2 : recentHistory cy ytc hist = []
    · simp [get_rotation_score, h1, h2]
    · rw [rotation_score_eq crop hist cy ytc h1 h2]
      have : clampedRotationScore crop (recentHistory cy ytc hist) ≤ (100 : ℤ) := by
        unfold clampedRotationScore
        omega
      exact_mod_cast this

/-- C4: Appending a further in-window occurrence of the same crop to the
history never increases `get_rotation_score`, and the same-crop penalty is
`min(N*25, 50)`: 25 at one occurrence, capped at 50 from N = 2 on. -/
theorem rotation_monotone_same_crop :
    (∀ (crop : String) (hist : List HistoryEntry) (cy ytc : ℤ)
      (e : HistoryEntry), e.crop_name = some crop →
      cy - ytc ≤ e.year.getD 0 →
      (get_rotation_score crop (hist ++ [e]) cy ytc).rotation_score ≤
        (get_rotation_score crop hist cy ytc).rotation_score) ∧
    (∀ n : ℕ, sameCropPenalty n = min ((n : ℤ) * 25) 50) ∧
    sameCropPenalty 1 = 25 ∧ sameCropPenalty 2 = 50 ∧
    (∀ n : ℕ, 2 ≤ n → sameCropPenalty n = 50) := by
  refine ⟨?_, fun n => rfl, by decide, by decide, ?_⟩
  · intro crop hist cy ytc e he hy
    by_cases h1 : hist = []
    · subst h1
      calc (get_rotation_score crop ([] ++ [e]) cy ytc).rotation_score
          ≤ 100 := rotation_score_le_100 crop ([] ++ [e]) cy ytc
        _ = (get_rotation_score crop [] cy ytc).rotation_score := by
            simp [get_rotation_score]
    · by_cases h2 : recentHistory cy ytc hist = []
      · calc (get_rotation_score crop (hist ++ [e]) cy ytc).rotation_score
            ≤ 100 := rotation_score_le_100 crop (hist ++ [e]) cy ytc
          _ = (get_rotation_score crop hist cy ytc).rotation_score := by
              simp [get_rotation_score, h1, h2]
      · have hre : recentHistory cy ytc (hist ++ [e]) =
            recentHistory cy ytc hist ++ [e] := by
          rw [recentHistory_append]
          have hsing : recentHistory cy ytc [e] = [e] := by
            simp only [recentHistory, List.filter_cons, List.filter_nil]
            rw [if_pos (decide_eq_true hy)]
          rw [hsing]
        have h1' : hist ++ [e] ≠ [] := by simp
        have h2' : recentHistory cy ytc (hist ++ [e]) ≠ [] := by
          rw [hre]; simp
        rw [rotation_score_eq crop (hist ++ [e]) cy ytc h1' h2',
          rotation_score_eq crop hist cy ytc h1 h2, hre]
        exact_mod_cast clamped_append_same crop (recentHistory cy ytc hist) e he
  · intro n hn
    unfold sameCropPenalty
    omega

/-- Witness for `rotation_monotone_same_crop`: a second in-window Rice entry
does not raise Rice's rotation score, and the penalty caps at 50 for five
occurrences. -/
theorem rotation_monotone_same_crop_witness :
    (get_rotation_score "Rice"
        ([⟨some "Rice", some 2025, none⟩] ++ [⟨some "Rice", some 2024, none⟩])
        2025 3).rotation_score ≤
      (get_rotation_score "Rice" [⟨some "Rice", some 2025, none⟩]
        2025 3).rotation_score ∧
    sameCropPenalty 5 = 50 :=
  ⟨rotation_monotone_same_crop.1 "Rice" [⟨some "Rice", some 2025, none⟩]
      2025 3 ⟨some "Rice", some 2024, none⟩ rfl (by decide),
    rotation_monotone_same_crop.2.2.2.2 5 (by decide)⟩

end RotationMonotonicity

section MalformedEntries

open CropRotationAnalyzer

/-- The penalties list of `get_rotation_score`, in closed form: the same-crop
penalty message followed by one message per incompatible occurrence (empty in
the two neutral early-return branches, where both components are empty). -/
theorem rotation_penalties_formula (crop : String) (hist : List HistoryEntry)
    (cy ytc : ℤ) :
    (get_rotation_score crop hist cy ytc).rotation_penalties =
      (if 0 < sameCropCount crop (recentHistory cy ytc hist) then
        [s!"Crop {crop} was grown {sameCropCount crop (recentHistory cy ytc hist)} time(s) in last {ytc} years"]
       else []) ++
      (incompatOccurrences crop (recentHistory cy ytc hist)).map
        incompatPenaltyMsg := by
  by_cases h1 : hist = []
  · subst h1
    simp [get_rotation_score, recentHistory, sameCropCount, incompatOccurrences]
  · by_cases h2 : recentHistory cy ytc hist = []
    · simp [get_rotation_score, h1, h2, sameCropCount, incompatOccurrences]
    · simp [get_rotation_score, h1, h2]

theorem filter_skip_entry (p : HistoryEntry → Bool) (e : HistoryEntry)
    (hp : p e = false) (l1 l2 : List HistoryEntry) :
    (l1 ++ e :: l2).filter p = (l1 ++ l2).filter p := by
  simp [List.filter_append, List.filter_cons, hp]

open CropRotationAnalyzer in
/-- C7 counterexample: A history entry with a missing crop name is not
skipped: inside the lookback window it counts as non-legume history, so adding
one to Soybean's history triggers the +5 legume nitrogen-fixation bonus,
raising the score from 75 to 80 and adding a benefit line. -/
theorem malformed_entry_feeds_legume_bonus :
    (get_rotation_score "Soybean"
      [⟨some "Soybean", some 2025, none⟩, ⟨none, some 2025, none⟩]
      2025 3).rotation_score = 80 ∧
    (get_rotation_score "Soybean" [⟨some "Soybean", some 2025, none⟩]
      2025 3).rotation_score = 75 ∧
    (get_rotation_score "Soybean"
      [⟨some "Soybean", some 2025, none⟩, ⟨none, some 2025, none⟩]
      2025 3).rotation_benefits =
      ["Legume crop after non-legume improves soil nitrogen"] ∧
    (get_rotation_score "Soybean" [⟨some "Soybean", some 2025, none⟩]
      2025 3).rotation_benefits = [] := by
  decide

open CropRotationAnalyzer in
/-- C7 amended: Malformed history entries never abort processing of the
rest of the history (`get_rotation_score` is total), and:
an entry with a missing year is excluded from the lookback window (whenever
`current_year - years_to_check > 0`) and so contributes nothing — score,
benefits and penalties are as if it were absent; an entry with a missing crop
name contributes no same-crop penalty, no incompatible-crop penalty and no
compatible-rotation benefit — the same-crop count, both occurrence lists and
the penalties list are as if it were absent — though (per the counterexample)
it does count as non-legume history for the legume bonus. -/
theorem malformed_entries_skipped :
    (∀ (crop : String) (pre post : List HistoryEntry) (cy ytc : ℤ)
      (e : HistoryEntry), e.year = none → 0 < cy - ytc →
      (get_rotation_score crop (pre ++ e :: post) cy ytc).rotation_score =
        (get_rotation_score crop (pre ++ post) cy ytc).rotation_score ∧
      (get_rotation_score crop (pre ++ e :: post) cy ytc).rotation_benefits =
        (get_rotation_score crop (pre ++ post) cy ytc).rotation_benefits ∧
      (get_rotation_score crop (pre ++ e :: post) cy ytc).rotation_penalties =
        (get_rotation_score crop (pre ++ post) cy ytc).rotation_penalties) ∧
    (∀ (crop : String) (pre post : List HistoryEntry) (cy ytc : ℤ)
      (e : HistoryEntry), e.crop_name = none →
      sameCropCount crop (recentHistory cy ytc (pre ++ e :: post)) =
        sameCropCount crop (recentHistory cy ytc (pre ++ post)) ∧
      incompatOccurrences crop (recentHistory cy ytc (pre ++ e :: post)) =
        incompatOccurrences crop (recentHistory cy ytc (pre ++ post)) ∧
      compatOccurrences crop (recentHistory cy ytc (pre ++ e :: post)) =
        compatOccurrences crop (recentHistory cy ytc (pre ++ post)) ∧
      (get_rotation_score crop (pre ++ e :: post) cy ytc).rotation_penalties =
        (get_rotation_score crop (pre ++ post) cy ytc).rotation_penalties) := by
  constructor
  · intro crop pre post cy ytc e hy hpos
    have hpe : ¬(cy - ytc ≤ e.year.getD 0) := by
      rw [hy]
      simp only [Option.getD_none]
      omega
    have hrec : recentHistory cy ytc (pre ++ e :: post) =
        recentHistory cy ytc (pre ++ post) := by
      unfold recentHistory
      rw [List.filter_append, List.filter_cons, List.filter_append,
        if_neg (by simpa using hpe)]
    by_cases h0 : pre ++ post = []
    · obtain ⟨hpre, hpost⟩ := List.append_eq_nil.mp h0
      subst hpre hpost
      have hrece : recentHistory cy ytc ([] ++ e :: []) = [] := by
        rw [hrec]; rfl
      simp only [List.nil_append] at hrece
      refine ⟨?_, ?_, ?_⟩ <;> simp [get_rotation_score, hrece]
    · have h0' : pre ++ e :: post ≠ [] := by simp
      by_cases h2 : recentHistory cy ytc (pre ++ post) = []
      · refine ⟨?_, ?_, ?_⟩ <;> simp [get_rotation_score, h0, h0', hrec, h2]
      · refine ⟨?_, ?_, ?_⟩ <;> simp [get_rotation_score, h0, h0', hrec, h2]
  · intro crop pre post cy ytc e hc
    have hsame : (fun h => decide (h.crop_name = some crop)) e = false := by
      simp [hc]
    have hinc : (fun (h : HistoryEntry) =>
        match h.crop_name with
        | some c => decide (c ∈ INCOMPATIBLE_CROPS crop)
        | none => false) e = false := by
      simp only [hc]
    have hcomp : (fun (h : HistoryEntry) =>
        match h.crop_name with
        | some c => decide (c ∈ COMPATIBLE_ROTATIONS crop)
        | none => false) e = false := by
      simp only [hc]
    by_cases hw : decide (cy - ytc ≤ e.year.getD 0) = true
    · have hrec : recentHistory cy ytc (pre ++ e :: post) =
          recentHistory cy ytc pre ++ e :: recentHistory cy ytc post := by
        unfold recentHistory
        rw [List.filter_append, List.filter_cons, if_pos hw]
      have hrecPP : recentHistory cy ytc (pre ++ post) =
          recentHistory cy ytc pre ++ recentHistory cy ytc post := by
        unfold recentHistory
        rw [List.filter_append]
      have hsc : sameCropCount crop (recentHistory cy ytc (pre ++ e :: post)) =
          sameCropCount crop (recentHistory cy ytc (pre ++ post)) := by
        unfold sameCropCount
        rw [hrec, hrecPP, filter_skip_entry _ e hsame]
      have hio : incompatOccurrences crop (recentHistory cy ytc (pre ++ e :: post)) =
          incompatOccurrences crop (recentHistory cy ytc (pre ++ post)) := by
        unfold incompatOccurrences
        rw [hrec, hrecPP, filter_skip_entry _ e hinc]
      have hco : compatOccurrences crop (recentHistory cy ytc (pre ++ e :: post)) =
          compatOccurrences crop (recentHistory cy ytc (pre ++ post)) := by
        unfold compatOccurrences
        rw [hrec, hrecPP, filter_skip_entry _ e hcomp]
      refine ⟨hsc, hio, hco, ?_⟩
      rw [rotation_penalties_formula, rotation_penalties_formula, hsc, hio]
    · have hrec : recentHistory cy ytc (pre ++ e :: post) =
          recentHistory cy ytc (pre ++ post) := by
        unfold recentHistory
        rw [List.filter_append, List.filter_cons, List.filter_append, if_neg hw]
      refine ⟨by rw [hrec], by rw [hrec], by rw [hrec], ?_⟩
      rw [rotation_penalties_formula, rotation_penalties_formula, hrec]

open CropRotationAnalyzer in
/-- Witness for `malformed_entries_skipped`: a year-missing entry appended to a
one-entry Rice history changes nothing, and a crop-name-missing entry leaves
count, occurrence lists and penalties unchanged. -/
theorem malformed_entries_skipped_witness :
    ((get_rotation_score "Rice"
        ([⟨some "Rice", some 2025, none⟩] ++ ⟨some "Wheat", none, none⟩ :: [])
        2025 3).rotation_score =
      (get_rotation_score "Rice" ([⟨some "Rice", some 2025, none⟩] ++ [])
        2025 3).rotation_score ∧
     (get_rotation_score "Rice"
        ([⟨some "Rice", some 2025, none⟩] ++ ⟨some "Wheat", none, none⟩ :: [])
        2025 3).rotation_benefits =
      (get_rotation_score "Rice" ([⟨some "Rice", some 2025, none⟩] ++ [])
        2025 3).rotation_benefits ∧
     (get_rotation_score "Rice"
        ([⟨some "Rice", some 2025, none⟩] ++ ⟨some "Wheat", none, none⟩ :: [])
        2025 3).rotation_penalties =
      (get_rotation_score "Rice" ([⟨some "Rice", some 2025, none⟩] ++ [])
        2025 3).rotation_penalties) ∧
    (get_rotation_score "Rice"
        ([⟨some "Rice", some 2025, none⟩] ++ ⟨none, some 2025, none⟩ :: [])
        2025 3).rotation_penalties =
      (get_rotation_score "Rice" ([⟨some "Rice", some 2025, none⟩] ++ [])
        2025 3).rotation_penalties :=
  ⟨malformed_entries_skipped.1 "Rice" [⟨some "Rice", some 2025, none⟩] []
      2025 3 ⟨some "Wheat", none, none⟩ rfl (by decide),
    (malformed_entries_skipped.2 "Rice" [⟨some "Rice", some 2025, none⟩] []
      2025 3 ⟨none, some 2025, none⟩ rfl).2.2.2⟩

end MalformedEntries

section Engine

open CropRecommendationService

/-- C2: When the external/ML predictor raises (`.error`) or returns no
recommendations (`.ok []`), `get_recommendations` propagates no exception: it
falls through to the rule-based path and returns a non-empty list of at most
`limit` records sorted descending by confidence score. -/
theorem predictor_failure_falls_back
    (ph n p k mo t rain hum lat lon : Option ℚ) (season : Option String)
    (limit : ℕ) (use_ml ml_available : Bool)
    (mlOutcome : Except Unit (List MLPred)) (ml_yield : String → Option ℚ)
    (month : ℕ)
    (hml : mlOutcome = .error () ∨ mlOutcome = .ok []) (hlim : 1 ≤ limit) :
    get_recommendations ph n p k mo t rain hum lat lon season limit use_ml
        ml_available mlOutcome ml_yield month =
      ruleBasedPath ph n p k mo t rain season month limit ∧
    get_recommendations ph n p k mo t rain hum lat lon season limit use_ml
        ml_available mlOutcome ml_yield month ≠ [] ∧
    (get_recommendations ph n p k mo t rain hum lat lon season limit use_ml
        ml_available mlOutcome ml_yield month).length ≤ limit ∧
    List.Pairwise byConfidenceDesc
      (get_recommendations ph n p k mo t rain hum lat lon season limit use_ml
        ml_available mlOutcome ml_yield month) := by
  have heq : get_recommendations ph n p k mo t rain hum lat lon season limit
      use_ml ml_available mlOutcome ml_yield month =
      ruleBasedPath ph n p k mo t rain season month limit := by
    rcases hml with h | h <;> subst h <;> cases use_ml <;> cases ml_available <;>
      simp [get_recommendations]
  have hlen12 : (ruleBasedRecords ph n p k mo t rain season month).length = 12 := by
    unfold ruleBasedRecords
    rw [List.length_map]
    rfl
  have hsortlen : (List.insertionSort byConfidenceDesc
      (ruleBasedRecords ph n p k mo t rain season month)).length = 12 := by
    rw [(List.perm_insertionSort byConfidenceDesc _).length_eq, hlen12]
  refine ⟨heq, ?_, ?_, ?_⟩
  · rw [heq]
    unfold ruleBasedPath
    intro hnil
    have hl := congrArg List.length hnil
    rw [List.length_take, hsortlen] at hl
    simp at hl
    omega
  · rw [heq]
    unfold ruleBasedPath
    rw [List.length_take, hsortlen]
    exact min_le_left _ _
  · rw [heq]
    unfold ruleBasedPath
    exact List.Pairwise.sublist (List.take_sublist _ _)
      (List.sorted_insertionSort byConfidenceDesc _)

/-- Witness for `predictor_failure_falls_back`: a raising predictor with
all-missing conditions and limit 10 still yields the non-empty, sorted,
truncated rule-based list. -/
theorem predictor_failure_falls_back_witness :
    get_recommendations none none none none none none none none none none
        none 10 true true (.error ()) (fun _ => none) 7 =
      ruleBasedPath none none none none none none none none 7 10 ∧
    get_recommendations none none none none none none none none none none
        none 10 true true (.error ()) (fun _ => none) 7 ≠ [] ∧
    (get_recommendations none none none none none none none none none none
        none 10 true true (.error ()) (fun _ => none) 7).length ≤ 10 ∧
    List.Pairwise byConfidenceDesc
      (get_recommendations none none none none none none none none none none
        none 10 true true (.error ()) (fun _ => none) 7) :=
  predictor_failure_falls_back none none none none none none none none none
    none none 10 true true (.error ()) (fun _ => none) 7 (Or.inl rfl)
    (by norm_num)

/-- C10: The rule-based recommendation path accepts but never reads
rainfall, humidity, latitude and longitude: two calls agreeing on pH, N, P, K,
moisture, temperature and season while differing arbitrarily in those four
inputs return identical results — for `calculate_compatibility_score`, for the
`use_ml = false` branch of `get_recommendations`, and for the fallback branch
where the predictor raises. -/
theorem rainfall_location_noninterference :
    (∀ (crop : String) (ph n p k mo t r1 r2 : Option ℚ)
      (season : Option String) (month : ℕ),
      calculate_compatibility_score crop ph n p k mo t r1 season month =
        calculate_compatibility_score crop ph n p k mo t r2 season month) ∧
    (∀ (ph n p k mo t r1 r2 h1 h2 la1 la2 lo1 lo2 : Option ℚ)
      (season : Option String) (limit : ℕ) (ml_available : Bool)
      (mlOutcome : Except Unit (List MLPred)) (ml_yield : String → Option ℚ)
      (month : ℕ),
      get_recommendations ph n p k mo t r1 h1 la1 lo1 season limit false
          ml_available mlOutcome ml_yield month =
        get_recommendations ph n p k mo t r2 h2 la2 lo2 season limit false
          ml_available mlOutcome ml_yield month) ∧
    (∀ (ph n p k mo t r1 r2 h1 h2 la1 la2 lo1 lo2 : Option ℚ)
      (season : Option String) (limit : ℕ) (use_ml ml_available : Bool)
      (ml_yield : String → Option ℚ) (month : ℕ),
      get_recommendations ph n p k mo t r1 h1 la1 lo1 season limit use_ml
          ml_available (.error ()) ml_yield month =
        get_recommendations ph n p k mo t r2 h2 la2 lo2 season limit use_ml
          ml_available (.error ()) ml_yield month) := by
  refine ⟨fun crop ph n p k mo t r1 r2 season month => rfl,
    fun ph n p k mo t r1 r2 h1 h2 la1 la2 lo1 lo2 season limit mla mlo mly
      month => rfl,
    fun ph n p k mo t r1 r2 h1 h2 la1 la2 lo1 lo2 season limit uml mla mly
      month => ?_⟩
  cases uml <;> cases mla <;> rfl

end Engine

end CropRec
